import Mathlib

/-!
Shallow embedding of the Sogni n8n node (nodes/Sogni/Sogni.node.ts) used to
check the natural-language specification against the code.  JavaScript numbers
that matter to the claims are modelled as `JsNumber` (NaN and the infinities
kept apart from finite rationals), nullish field values as `Option`, thrown
exceptions as `Except`, and the host/platform primitives (fetch, JSON.parse,
the binary-data store) as explicit parameters.
-/

set_option maxHeartbeats 1000000
set_option linter.unusedVariables false

/-- Model of a JavaScript number: NaN, the two infinities, or a finite value
(represented exactly as a rational). -/
inductive JsNumber where
  | nan
  | posInf
  | negInf
  | num (x : ℚ)
  deriving DecidableEq, Repr

/-- A numeric n8n parameter field: `none` models `undefined`/`null` (the values
skipped by the `??` operator), `some v` a present JavaScript number. -/
abbrev NumField := Option JsNumber

/-- JavaScript nullish coalescing `a ?? b` on optional values: only a missing
value falls through, any present value (including NaN, 0, false) wins. -/
def jsCoalesce {α : Type} (a b : Option α) : Option α :=
  match a with
  | some v => some v
  | none => b

/-- JavaScript test `typeof v === 'number' && !Number.isNaN(v)` for an optional
numeric field. -/
def isNumberNotNaN (v : NumField) : Bool :=
  match v with
  | some JsNumber.nan => false
  | some _ => true
  | none => false

/-- Network tier parameter: `'fast' | 'relaxed'`. -/
inductive Network where
  | fast
  | relaxed
  deriving DecidableEq, Repr

/-! JavaScript string helpers used by the node (`toLowerCase`, `startsWith`,
`includes`, `trim`), modelled over the character list of a Lean string. -/

/-- ASCII lower-casing of one character (enough for the model-id matching the
node performs). -/
def asciiLowerChar (c : Char) : Char :=
  if 'A' ≤ c ∧ c ≤ 'Z' then Char.ofNat (c.toNat + 32) else c

/-- Model of JavaScript `String.prototype.toLowerCase`. -/
def jsToLowerCase (s : String) : String :=
  ⟨s.data.map asciiLowerChar⟩

/-- Whether the first list starts with the second one. -/
def listStartsWith : List Char → List Char → Bool
  | _, [] => true
  | [], _ :: _ => false
  | c :: cs, p :: ps => c = p && listStartsWith cs ps

/-- Whether `pat` occurs as a contiguous sublist of `s`. -/
def listContainsSub : List Char → List Char → Bool
  | s, pat =>
    if listStartsWith s pat then true
    else
      match s with
      | [] => false
      | _ :: rest => listContainsSub rest pat

/-- Model of JavaScript `String.prototype.startsWith`. -/
def jsStartsWith (s pat : String) : Bool :=
  listStartsWith s.data pat.data

/-- Model of JavaScript `String.prototype.includes`. -/
def jsIncludes (s pat : String) : Bool :=
  listContainsSub s.data pat.data

/-- Characters removed by JavaScript `String.prototype.trim` (the whitespace
forms that occur in n8n string parameters). -/
def jsIsWhitespace (c : Char) : Bool :=
  c = ' ' || c = '\t' || c = '\n' || c = '\r'

/-- Model of JavaScript `String.prototype.trim`. -/
def jsTrim (s : String) : String :=
  ⟨((s.data.dropWhile jsIsWhitespace).reverse.dropWhile jsIsWhitespace).reverse⟩

/-! Configuration resolver, image generation (Sogni.node.ts, execute, image
generate branch).  Each field is resolved by nullish coalescing over the
grouped (`gen`/`out`/`adv`) and legacy flat parameter bags. -/

/-- Source line `const steps = gen.steps ?? legacy.steps ?? 20;`. -/
def imageSteps (genSteps legacySteps : NumField) : JsNumber :=
  (jsCoalesce genSteps legacySteps).getD (JsNumber.num 20)

/-- Source line `const guidance = gen.guidance ?? legacy.guidance ?? 7.5;`. -/
def imageGuidance (genGuidance legacyGuidance : NumField) : JsNumber :=
  (jsCoalesce genGuidance legacyGuidance).getD (JsNumber.num (15 / 2))

/-- Source line `const seed = gen.seed ?? legacy.seed;`. -/
def imageSeed (genSeed legacySeed : NumField) : NumField :=
  jsCoalesce genSeed legacySeed

/-- Source line `const timeoutInput = adv.timeout ?? legacy.timeout;`. -/
def imageTimeoutInput (advTimeout legacyTimeout : NumField) : NumField :=
  jsCoalesce advTimeout legacyTimeout

/-- Image-generate timeout defaulting:
`typeof timeoutInput === 'number' && !Number.isNaN(timeoutInput) ? timeoutInput
: network === 'fast' ? 60_000 : 600_000`. -/
def imageResolvedTimeoutMs (timeoutInput : NumField) (network : Network) : JsNumber :=
  if isNumberNotNaN timeoutInput then timeoutInput.getD JsNumber.nan
  else if network = Network.fast then JsNumber.num 60000 else JsNumber.num 600000

/-- Image-edit model test `modelId.toLowerCase().includes('lightning')`. -/
def isLightningModel (modelId : String) : Bool :=
  jsIncludes (jsToLowerCase modelId) "lightning"

/-- Image-edit steps defaulting:
`typeof stepsInput === 'number' && !Number.isNaN(stepsInput) ? stepsInput :
isLightningModel ? 4 : 20`. -/
def editSteps (stepsInput : NumField) (modelId : String) : JsNumber :=
  if isNumberNotNaN stepsInput then stepsInput.getD JsNumber.nan
  else if isLightningModel modelId then JsNumber.num 4 else JsNumber.num 20

/-- Image-edit guidance defaulting:
`typeof guidanceInput === 'number' && !Number.isNaN(guidanceInput) ?
guidanceInput : isLightningModel ? 1.0 : 4.0`. -/
def editGuidance (guidanceInput : NumField) (modelId : String) : JsNumber :=
  if isNumberNotNaN guidanceInput then guidanceInput.getD JsNumber.nan
  else if isLightningModel modelId then JsNumber.num 1 else JsNumber.num 4

/-- Image-edit timeout defaulting (same shape and constants as the image
generate branch). -/
def editResolvedTimeoutMs (timeoutInput : NumField) (network : Network) : JsNumber :=
  if isNumberNotNaN timeoutInput then timeoutInput.getD JsNumber.nan
  else if network = Network.fast then JsNumber.num 60000 else JsNumber.num 600000

/-- Video timeout defaulting:
`typeof timeoutInput === 'number' && !Number.isNaN(timeoutInput) ? timeoutInput
: videoNetwork === 'fast' ? 120_000 : 1_200_000`. -/
def videoResolvedTimeoutMs (timeoutInput : NumField) (videoNetwork : Network) : JsNumber :=
  if isNumberNotNaN timeoutInput then timeoutInput.getD JsNumber.nan
  else if videoNetwork = Network.fast then JsNumber.num 120000 else JsNumber.num 1200000

/-- Cost-estimate frames parameter: the request carries `frames` only when
`typeof framesInput === 'number' && !Number.isNaN(framesInput) && framesInput > 0`. -/
def estimateFramesParam (framesInput : NumField) : NumField :=
  match framesInput with
  | some (JsNumber.num x) => if 0 < x then some (JsNumber.num x) else none
  | some JsNumber.posInf => some JsNumber.posInf
  | some _ => none
  | none => none

/-! Frame quantization for the LTX-2 model family (video generate branch). -/

/-- JavaScript `Math.round` on a finite value: round half toward positive
infinity, that is the floor of `x + 1/2`. -/
def jsRound (x : ℚ) : ℤ :=
  Int.floor (x + 1 / 2)

/-- Source line `const isLtx2Model = videoModelId.toLowerCase().startsWith('ltx2-');`. -/
def isLtx2Model (videoModelId : String) : Bool :=
  jsStartsWith (jsToLowerCase videoModelId) "ltx2-"

/-- LTX-2 frame quantizer, the expression
`Math.max(9, Math.round((requestedFrames - 1) / 8) * 8 + 1)` taken on an
integer requested frame count. -/
def ltx2Frames (requestedFrames : ℤ) : ℤ :=
  max 9 (jsRound (((requestedFrames : ℚ) - 1) / 8) * 8 + 1)

/-- Resolved frame count:
`isLtx2Model ? Math.max(9, Math.round((requestedFrames - 1) / 8) * 8 + 1) :
requestedFrames`. -/
def resolveFrames (videoModelId : String) (requestedFrames : ℤ) : ℤ :=
  if isLtx2Model videoModelId then ltx2Frames requestedFrames else requestedFrames

/-- The smallest value of the form `8 * n + 1` that is not less than `f`
(the bound the frame-quantization claim compares against). -/
def smallestQuantAtLeast (f : ℤ) : ℤ :=
  8 * ((f + 6) / 8) + 1

/-! Identity allocator (normalizeAppId / generateUniqueAppId and the appId
selection in execute and the three loadOptions methods). -/

/-- Credentials record: username, password and the optional appId override. -/
structure Credentials where
  username : String
  password : String
  appId : Option String
  deriving DecidableEq, Repr

/-- Source function normalizeAppId: treat a missing or non-string value as
unset, trim, and treat an empty trim result as unset; otherwise return the
trimmed string. -/
def normalizeAppId (appId : Option String) : Option String :=
  match appId with
  | none => none
  | some s =>
      let trimmed := jsTrim s
      if trimmed.length ≠ 0 then some trimmed else none

/-- Source function generateUniqueAppId: the tag joined to the random UUID
component with a dash.  The UUID produced by `randomUUID()` is passed in
explicitly. -/
def generateUniqueAppId (pfx uuid : String) : String :=
  pfx ++ "-" ++ uuid

/-- The appId chosen by execute:
`const appId = userProvidedAppId ?? generateUniqueAppId('n8n-sogni');`. -/
def executeAppId (credentialsAppId : Option String) (uuid : String) : String :=
  (normalizeAppId credentialsAppId).getD (generateUniqueAppId "n8n-sogni" uuid)

/-! Session shutdown (promiseWithTimeout / safeDisconnect).  The wrapper and
transport are external objects, so their possible behaviors are universally
quantified: the disconnect call may be missing, throw synchronously, resolve or
reject after some time, or hang; the probed socket fields may throw, be absent,
or yield a handle whose methods may each be missing, succeed, or throw. -/

/-- A thrown JavaScript error value carrying a message. -/
inductive JsError where
  | err (message : String)
  deriving DecidableEq, Repr

/-- Possible outcomes of awaiting a promise, with the completion time in
milliseconds for outcomes that do complete. -/
inductive AsyncOutcome where
  | resolves (t : ℚ)
  | rejects (t : ℚ) (e : JsError)
  | hangs
  deriving DecidableEq, Repr

/-- Source function promiseWithTimeout: race the promise against a
`timeoutMs` timer; the timer rejects with a labelled timeout error.  Returns
the outcome together with the elapsed time. -/
def promiseWithTimeout (p : AsyncOutcome) (timeoutMs : ℚ) (label : String) :
    Except JsError Unit × ℚ :=
  match p with
  | AsyncOutcome.resolves t =>
      if t ≤ timeoutMs then (Except.ok (), t)
      else (Except.error (JsError.err s!"{label} timed out after {timeoutMs.num}ms"), timeoutMs)
  | AsyncOutcome.rejects t e =>
      if t ≤ timeoutMs then (Except.error e, t)
      else (Except.error (JsError.err s!"{label} timed out after {timeoutMs.num}ms"), timeoutMs)
  | AsyncOutcome.hangs =>
      (Except.error (JsError.err s!"{label} timed out after {timeoutMs.num}ms"), timeoutMs)

/-- Behavior of `client.disconnect`: not a function, a synchronous throw on
access or call, or a promise with some asynchronous outcome. -/
inductive DisconnectBehavior where
  | absent
  | throwsSync (e : JsError)
  | promise (p : AsyncOutcome)
  deriving DecidableEq, Repr

/-- Behavior of one method of the probed socket handle. -/
inductive MethodBehavior where
  | absent
  | succeeds
  | throws (e : JsError)
  deriving DecidableEq, Repr

/-- The probed low-level socket handle: an optional numeric readyState and the
three methods safeDisconnect may call on it. -/
structure WsHandle where
  readyState : Option ℤ
  closeMethod : MethodBehavior
  terminateMethod : MethodBehavior
  removeAllListenersMethod : MethodBehavior
  deriving DecidableEq, Repr

/-- Result of evaluating the probe expression
`client.socket ?? client.ws ?? ... ?? client.client?.websocket`: a getter may
throw, every field may be nullish, or a handle is found. -/
inductive ProbeBehavior where
  | throws (e : JsError)
  | missing
  | found (ws : WsHandle)
  deriving DecidableEq, Repr

/-- The complete behavior of a client value passed to safeDisconnect. -/
structure ClientState where
  disconnect : DisconnectBehavior
  probe : ProbeBehavior
  deriving DecidableEq, Repr

/-- A try/catch block whose catch clause only logs: the error is swallowed. -/
def catchAllE (r : Except JsError Unit) : Except JsError Unit :=
  match r with
  | Except.ok _ => Except.ok ()
  | Except.error _ => Except.ok ()

/-- Calling an optional method inside its own try block body:
absent methods are skipped by the `typeof === 'function'` guard. -/
def callMethod (m : MethodBehavior) : Except JsError Unit :=
  match m with
  | MethodBehavior.absent => Except.ok ()
  | MethodBehavior.succeeds => Except.ok ()
  | MethodBehavior.throws e => Except.error e

/-- Resolution of the cleanup bound:
`typeof context.timeoutMs === 'number' && context.timeoutMs > 0 ?
context.timeoutMs : 5000` (the call sites pass the finite literals 5000 and
2000). -/
def resolveCleanupTimeoutMs (t : Option ℚ) : ℚ :=
  match t with
  | some x => if 0 < x then x else 5000
  | none => 5000

/-- Step 1 of safeDisconnect: the guarded, time-bounded graceful disconnect,
before its surrounding try/catch is applied. -/
def gracefulDisconnectBody (d : DisconnectBehavior) (timeoutMs : ℚ) (tag : String) :
    Except JsError Unit × ℚ :=
  match d with
  | DisconnectBehavior.absent => (Except.ok (), 0)
  | DisconnectBehavior.throwsSync e => (Except.error e, 0)
  | DisconnectBehavior.promise p => promiseWithTimeout p timeoutMs s!"disconnect ({tag})"

/-- Step 2 of safeDisconnect: probe for the transport handle and issue
best-effort close, terminate and removeAllListeners, each in its own inner
try/catch; this is the body of the outer try/catch of step 2. -/
def hardCloseBody (probe : ProbeBehavior) : Except JsError Unit :=
  match probe with
  | ProbeBehavior.throws e => Except.error e
  | ProbeBehavior.missing => Except.ok ()
  | ProbeBehavior.found ws =>
      let isClosed := ws.readyState = some 3
      let closeAndTerminate :=
        if ¬isClosed then
          match catchAllE (callMethod ws.closeMethod) with
          | _ => catchAllE (callMethod ws.terminateMethod)
        else Except.ok ()
      match closeAndTerminate with
      | _ => catchAllE (callMethod ws.removeAllListenersMethod)

/-- Source function safeDisconnect: null clients return immediately; otherwise
run the bounded graceful disconnect inside a try/catch, then the hard-close
probe inside a try/catch.  The returned pair is the overall outcome and the
elapsed time in milliseconds (the hard-close steps are synchronous). -/
def safeDisconnect (client : Option ClientState) (label : String)
    (timeoutMsCtx : Option ℚ) : Except JsError Unit × ℚ :=
  match client with
  | none => (Except.ok (), 0)
  | some c =>
      let timeoutMs := resolveCleanupTimeoutMs timeoutMsCtx
      let step1 := catchAllE (gracefulDisconnectBody c.disconnect timeoutMs label).1
      let step2 := catchAllE (hardCloseBody c.probe)
      (match step1 with
       | Except.ok _ => step2
       | Except.error e => Except.error e,
       (gracefulDisconnectBody c.disconnect timeoutMs label).2)

/-! The loadOptions methods (getModelOptions, getVideoModelOptions,
getImageEditModelOptions) share one shape: allocate a dedicated appId with the
loadopts tag, run the body, and always run safeDisconnect with a 2000 ms bound
in the finally block.  The body result is opaque here (it is a remote model
fetch plus rendering); the claims are about the appId and the cleanup. -/

/-- Outcome of one loadOptions call: the appId it used, the body result, and
the finally-block cleanup outcome. -/
structure LookupRun (α : Type) where
  appId : String
  result : Except JsError α
  cleanup : Except JsError Unit × ℚ

/-- Shared shape of the three loadOptions methods in the source. -/
def runLoadOptions {α : Type} (credentials : Credentials) (uuid : String)
    (client : Option ClientState) (label : String) (body : Except JsError α) :
    LookupRun α :=
  let appId := generateUniqueAppId "n8n-sogni-loadopts" uuid
  { appId := appId
    result := body
    cleanup := safeDisconnect client label (some 2000) }

/-- Source method getModelOptions. -/
def getModelOptionsRun {α : Type} (credentials : Credentials) (uuid : String)
    (client : Option ClientState) (body : Except JsError α) : LookupRun α :=
  runLoadOptions credentials uuid client "loadOptions:getModelOptions" body

/-- Source method getVideoModelOptions. -/
def getVideoModelOptionsRun {α : Type} (credentials : Credentials) (uuid : String)
    (client : Option ClientState) (body : Except JsError α) : LookupRun α :=
  runLoadOptions credentials uuid client "loadOptions:getVideoModelOptions" body

/-- Source method getImageEditModelOptions. -/
def getImageEditModelOptionsRun {α : Type} (credentials : Credentials) (uuid : String)
    (client : Option ClientState) (body : Except JsError α) : LookupRun α :=
  runLoadOptions credentials uuid client "loadOptions:getImageEditModelOptions" body

/-- The execute method always runs safeDisconnect with a 5000 ms bound in its
finally block (line `await safeDisconnect(client, { label: 'execute', appId,
timeoutMs: 5000 })`). -/
def executeCleanup (client : Option ClientState) : Except JsError Unit × ℚ :=
  safeDisconnect client "execute" (some 5000)

/-! Asset resolver: named binary inputs pulled from the per-item binary store. -/

/-- A raw byte buffer (Node Buffer), as a list of byte values. -/
abbrev Buffer := List ℕ

/-- The per-item binary store of the host, keyed by property name. -/
abbrev BinaryStore := List (String × Buffer)

/-- An n8n NodeOperationError: the message and the itemIndex option the node
passes along. -/
structure NodeError where
  message : String
  itemIndex : ℕ
  deriving DecidableEq, Repr

/-- Source helper readOptionalBinaryProperty (video generate branch): an empty
property name yields undefined; a named property missing from the store throws
a NodeOperationError naming the property and the item index; otherwise the
buffer is returned. -/
def readOptionalBinaryProperty (binary : BinaryStore) (itemIndex : ℕ)
    (propertyName label : String) : Except NodeError (Option Buffer) :=
  if propertyName = "" then Except.ok none
  else
    match binary.lookup propertyName with
    | none =>
        Except.error
          { message := s!"No binary data found in property \"{propertyName}\" for {label}."
            itemIndex := itemIndex }
    | some b => Except.ok (some b)

/-- Image-edit context image collection: the first context image is required
(missing yields a NodeOperationError), the second and third are added only when
their property name is set and the binary exists, and are silently skipped
otherwise. -/
def collectContextImages (binary : BinaryStore) (itemIndex : ℕ)
    (contextImage1Property contextImage2Property contextImage3Property : String) :
    Except NodeError (List Buffer) :=
  match binary.lookup contextImage1Property with
  | none =>
      Except.error
        { message := s!"No binary data found in property \"{contextImage1Property}\". Please provide a context image."
          itemIndex := itemIndex }
  | some b1 =>
      let imgs1 := [b1]
      let imgs2 :=
        if contextImage2Property ≠ "" ∧ jsTrim contextImage2Property ≠ "" then
          match binary.lookup contextImage2Property with
          | some b2 => imgs1 ++ [b2]
          | none => imgs1
        else imgs1
      let imgs3 :=
        if contextImage3Property ≠ "" ∧ jsTrim contextImage3Property ≠ "" then
          match binary.lookup contextImage3Property with
          | some b3 => imgs2 ++ [b3]
          | none => imgs2
        else imgs2
      Except.ok imgs3

/-- The four reference bindings of a video request, as they end up in the
project config: an unresolved binding is simply absent. -/
structure VideoReferenceAssets where
  referenceImage : Option Buffer
  referenceImageEnd : Option Buffer
  referenceAudio : Option Buffer
  referenceVideo : Option Buffer
  deriving DecidableEq, Repr

/-- Video generate branch: trim the four configured property names, resolve
each through readOptionalBinaryProperty, and place the results into the
request. -/
def resolveVideoReferenceAssets (binary : BinaryStore) (itemIndex : ℕ)
    (refImg refImgEnd refAudio refVideo : Option String) :
    Except NodeError VideoReferenceAssets := do
  let referenceImageProperty := jsTrim (refImg.getD "")
  let referenceImageEndProperty := jsTrim (refImgEnd.getD "")
  let referenceAudioProperty := jsTrim (refAudio.getD "")
  let referenceVideoProperty := jsTrim (refVideo.getD "")
  let referenceImage ← readOptionalBinaryProperty binary itemIndex referenceImageProperty "reference image"
  let referenceImageEnd ← readOptionalBinaryProperty binary itemIndex referenceImageEndProperty "reference end image"
  let referenceAudio ← readOptionalBinaryProperty binary itemIndex referenceAudioProperty "reference audio"
  let referenceVideo ← readOptionalBinaryProperty binary itemIndex referenceVideoProperty "reference video"
  Except.ok
    { referenceImage := referenceImage
      referenceImageEnd := referenceImageEnd
      referenceAudio := referenceAudio
      referenceVideo := referenceVideo }

/-! Artifact materializer: the image and video download loops. -/

/-- Source helper sniffMimeType: magic-byte detection for JPEG, PNG and GIF. -/
def sniffMimeType (buffer : Buffer) : Option String :=
  if buffer.length < 4 then none
  else if buffer.getD 0 0 = 0xff ∧ buffer.getD 1 0 = 0xd8 ∧ buffer.getD 2 0 = 0xff then
    some "image/jpeg"
  else if buffer.length ≥ 8 ∧ buffer.getD 0 0 = 0x89 ∧ buffer.getD 1 0 = 0x50 ∧
      buffer.getD 2 0 = 0x4e ∧ buffer.getD 3 0 = 0x47 ∧ buffer.getD 4 0 = 0x0d ∧
      buffer.getD 5 0 = 0x0a ∧ buffer.getD 6 0 = 0x1a ∧ buffer.getD 7 0 = 0x0a then
    some "image/png"
  else if buffer.length ≥ 6 ∧
      (buffer.take 6 = [0x47, 0x49, 0x46, 0x38, 0x37, 0x61] ∨
       buffer.take 6 = [0x47, 0x49, 0x46, 0x38, 0x39, 0x61]) then
    some "image/gif"
  else none

/-- Source helper extensionFromMime. -/
def extensionFromMime (mime : String) : String :=
  if mime = "image/jpeg" then "jpg"
  else if mime = "image/png" then "png"
  else if mime = "image/gif" then "gif"
  else "bin"

/-- JavaScript `a || b` for an optional string left operand: the empty string
is falsy and falls through. -/
def strOr (a b : Option String) : Option String :=
  match a with
  | some s => if s = "" then b else some s
  | none => b

/-- JavaScript `a || b` where the right operand is a plain string. -/
def jsOrString (a : Option String) (b : String) : String :=
  match a with
  | some s => if s = "" then b else s
  | none => b

/-- Index of the first occurrence of `pat` in `s`, if any. -/
def listFindSubIdx : List Char → List Char → Option ℕ
  | s, pat =>
    if listStartsWith s pat then some 0
    else
      match s with
      | [] => none
      | _ :: rest => (listFindSubIdx rest pat).map (· + 1)

/-- Source helper parseContentDispositionFilename: first the RFC 5987 extended
form (whose percent-encoded capture is decoded by the platform builtin
decodeURIComponent, passed in explicitly), then the quoted basic form, then the
unquoted basic form whose capture has quotes stripped and is trimmed.  Pattern
matching is case-insensitive, as in the source regular expressions. -/
def parseContentDispositionFilename (decodeURIComponent : String → String)
    (header : Option String) : Option String :=
  match header with
  | none => none
  | some h =>
      let cs := h.data
      let lc := cs.map asciiLowerChar
      let starPat := "filename*=utf-8\x27\x27".data
      let star :=
        match listFindSubIdx lc starPat with
        | some i =>
            let rest := cs.drop (i + starPat.length)
            let captured := rest.takeWhile (fun c => c ≠ ';')
            if captured.isEmpty then none else some (decodeURIComponent ⟨captured⟩)
        | none => none
      match star with
      | some v => some v
      | none =>
          let quotedPat := "filename=\"".data
          let quoted :=
            match listFindSubIdx lc quotedPat with
            | some i =>
                let rest := cs.drop (i + quotedPat.length)
                let captured := rest.takeWhile (fun c => c ≠ '"')
                if captured.isEmpty ∨ captured.length = rest.length then none
                else some captured
            | none => none
          match quoted with
          | some captured => some (jsTrim ⟨captured.filter (fun c => c ≠ '"')⟩)
          | none =>
              let basicPat := "filename=".data
              match listFindSubIdx lc basicPat with
              | some i =>
                  let rest := cs.drop (i + basicPat.length)
                  let captured := rest.takeWhile (fun c => c ≠ ';')
                  if captured.isEmpty then none
                  else some (jsTrim ⟨captured.filter (fun c => c ≠ '"')⟩)
              | none => none

/-- A fetch Response as far as the node reads it. -/
structure FetchResponse where
  ok : Bool
  status : ℕ
  statusText : String
  headers : List (String × String)
  body : Buffer
  deriving DecidableEq, Repr

/-- Outcome of `fetch(url)`: a response, or a thrown network error. -/
abbrev FetchOutcome := Except JsError FetchResponse

/-- Header normalization loop `resp.headers.forEach((v, k) => { headers[k.toLowerCase()] = v })`:
keys lower-cased, later duplicates overwrite earlier ones. -/
def normalizeHeaders (hs : List (String × String)) : List (String × String) :=
  hs.map (fun kv => (jsToLowerCase kv.1, kv.2))

/-- Header map read after normalization (the last write wins). -/
def getHeader (hs : List (String × String)) (k : String) : Option String :=
  (hs.reverse.lookup k)

/-- One stored binary artifact: the payload handed to
`this.helpers.prepareBinaryData(bodyBuffer, filename, mimeType)`. -/
structure BinaryEntry where
  data : Buffer
  fileName : String
  mimeType : String
  deriving DecidableEq, Repr

/-- A recorded per-index download failure (the catch block logs the index and
the error). -/
structure DownloadFailure where
  index : ℕ
  message : String
  deriving DecidableEq, Repr

/-- Result of a download loop: the named binary outputs and the recorded
failures. -/
structure DownloadResult where
  binary : List (String × BinaryEntry)
  failures : List DownloadFailure
  deriving DecidableEq, Repr

/-- Body of one iteration of the image download loop (image generate branch):
everything inside the per-index try block. -/
def downloadImageAt (fetch : String → FetchOutcome) (decodeURIComponent : String → String)
    (projectId : Option String) (imgIndex : ℕ) (imageUrl : String) :
    Except JsError (String × BinaryEntry) := do
  let resp ← fetch imageUrl
  if !resp.ok then
    Except.error (JsError.err s!"Failed to download image: {resp.status} {resp.statusText}")
  else
    let hs := normalizeHeaders resp.headers
    let headerCt := strOr (getHeader hs "content-type") (getHeader hs "Content-Type")
    let mimeType := jsOrString (strOr headerCt (sniffMimeType resp.body)) "application/octet-stream"
    let headerCd := strOr (getHeader hs "content-disposition") (getHeader hs "Content-Disposition")
    let cdFilename := parseContentDispositionFilename decodeURIComponent headerCd
    let guessedExt := extensionFromMime mimeType
    let defaultNameBase := (projectId.getD "sogni") ++ s!"_{imgIndex}"
    let filename := jsOrString cdFilename
      (defaultNameBase ++ "." ++ (if guessedExt = "" then "bin" else guessedExt))
    let binaryPropertyName := if imgIndex = 0 then "image" else s!"image_{imgIndex}"
    Except.ok (binaryPropertyName, { data := resp.body, fileName := filename, mimeType := mimeType })

/-- Body of one iteration of the video download loop (video generate branch):
the mime type falls back to `video/<outputFormat>`, the synthesized filename
uses the output format as extension, and the slots are video / video_k. -/
def downloadVideoAt (fetch : String → FetchOutcome) (decodeURIComponent : String → String)
    (videoProjectId : Option String) (outputFormat : String) (vidIndex : ℕ) (videoUrl : String) :
    Except JsError (String × BinaryEntry) := do
  let resp ← fetch videoUrl
  if !resp.ok then
    Except.error (JsError.err s!"Failed to download video: {resp.status} {resp.statusText}")
  else
    let hs := normalizeHeaders resp.headers
    let headerCt := strOr (getHeader hs "content-type") (getHeader hs "Content-Type")
    let mimeType := jsOrString headerCt ("video/" ++ outputFormat)
    let headerCd := strOr (getHeader hs "content-disposition") (getHeader hs "Content-Disposition")
    let cdFilename := parseContentDispositionFilename decodeURIComponent headerCd
    let defaultNameBase := (videoProjectId.getD "sogni_video") ++ s!"_{vidIndex}"
    let filename := jsOrString cdFilename (defaultNameBase ++ "." ++ outputFormat)
    let binaryPropertyName := if vidIndex = 0 then "video" else s!"video_{vidIndex}"
    Except.ok (binaryPropertyName, { data := resp.body, fileName := filename, mimeType := mimeType })

/-- The download loop shared by both branches: each indexed URL is processed in
its own try/catch; a failure is recorded for that index and the loop continues;
a success stores the binary entry under its slot name. -/
def downloadLoop (step : ℕ → String → Except JsError (String × BinaryEntry)) :
    List (ℕ × String) → DownloadResult
  | [] => { binary := [], failures := [] }
  | (i, url) :: rest =>
      let tail := downloadLoop step rest
      match step i url with
      | Except.ok entry => { binary := entry :: tail.binary, failures := tail.failures }
      | Except.error (JsError.err m) =>
          { binary := tail.binary, failures := { index := i, message := m } :: tail.failures }

/-- The image download phase including its guard
`if (downloadImages !== false && r.imageUrls && r.imageUrls.length > 0)`. -/
def imageDownloadPhase (downloadImages : Bool) (urls : List String)
    (fetch : String → FetchOutcome) (decodeURIComponent : String → String)
    (projectId : Option String) : DownloadResult :=
  if downloadImages ∧ urls.length > 0 then
    downloadLoop (downloadImageAt fetch decodeURIComponent projectId) urls.enum
  else { binary := [], failures := [] }

/-- The video download phase including its guard. -/
def videoDownloadPhase (downloadVideos : Bool) (urls : List String)
    (fetch : String → FetchOutcome) (decodeURIComponent : String → String)
    (videoProjectId : Option String) (outputFormat : String) : DownloadResult :=
  if downloadVideos ∧ urls.length > 0 then
    downloadLoop (downloadVideoAt fetch decodeURIComponent videoProjectId outputFormat) urls.enum
  else { binary := [], failures := [] }

/-! Per-item error propagation (the catch block at the bottom of the item
loop of execute). -/

/-- A JavaScript value thrown by an item: either an Error instance carrying a
message, or some other value. -/
inductive JsThrown where
  | errorObj (message : String)
  | nonError
  deriving DecidableEq, Repr

/-- The message extraction of the catch block:
`error instanceof Error ? error.message : 'Unknown error'`. -/
def thrownMessage (e : JsThrown) : String :=
  match e with
  | JsThrown.errorObj m => m
  | JsThrown.nonError => "Unknown error"

/-- What lands in returnData for one input item: the item output, or the
structured error record pushed when continue-on-failure is active. -/
inductive ItemResult (α : Type) where
  | success (out : α)
  | errorRecord (message : String)
  deriving DecidableEq, Repr

/-- The item loop of execute, abstracted over the per-item body outcomes: a
throwing item is caught at the item boundary; with continueOnFail a structured
error record is pushed and the loop continues; otherwise the error propagates
and the remaining items are not processed. -/
def processItems {α : Type} (continueOnFail : Bool) :
    List (Except JsThrown α) → Except JsThrown (List (ItemResult α))
  | [] => Except.ok []
  | r :: rest =>
      match r with
      | Except.ok out =>
          (processItems continueOnFail rest).map (fun l => ItemResult.success out :: l)
      | Except.error e =>
          if continueOnFail then
            (processItems continueOnFail rest).map
              (fun l => ItemResult.errorRecord (thrownMessage e) :: l)
          else Except.error e

/-! SAM2 coordinate validation (video generate branch). -/

/-- A JSON value as produced by JSON.parse. -/
inductive Json where
  | null
  | bool (b : Bool)
  | num (x : ℚ)
  | str (s : String)
  | arr (elems : List Json)
  | obj (fields : List (String × Json))

/-- Optional chaining property read `point?.x`: only objects yield fields. -/
def jsGetField (j : Json) (k : String) : Option Json :=
  match j with
  | Json.obj fields => fields.lookup k
  | _ => none

/-- JavaScript `Number(v)` on a JSON value or undefined.  The structural cases
follow the ECMAScript conversion table; conversion of strings, arrays and
objects goes through the platform (ToPrimitive and numeric-literal parsing) and
is passed in as parameters. -/
def jsToNumber (strToNum : String → JsNumber) (complexToNum : Json → JsNumber) :
    Option Json → JsNumber
  | none => JsNumber.nan
  | some Json.null => JsNumber.num 0
  | some (Json.bool b) => if b then JsNumber.num 1 else JsNumber.num 0
  | some (Json.num x) => JsNumber.num x
  | some (Json.str s) => strToNum s
  | some (Json.arr elems) => complexToNum (Json.arr elems)
  | some (Json.obj fields) => complexToNum (Json.obj fields)

/-- JavaScript `Number.isFinite`. -/
def jsIsFinite (v : JsNumber) : Bool :=
  match v with
  | JsNumber.num _ => true
  | _ => false

/-- One validated SAM2 coordinate `{ x, y }`. -/
structure Sam2Point where
  x : JsNumber
  y : JsNumber
  deriving DecidableEq, Repr

/-- The `parsed.map((point, pointIndex) => ...)` of the SAM2 validation: each
element must have x and y that are finite after Number conversion, otherwise a
NodeOperationError naming the point index is thrown. -/
def mapSam2Points (strToNum : String → JsNumber) (complexToNum : Json → JsNumber)
    (itemIndex : ℕ) : ℕ → List Json → Except NodeError (List Sam2Point)
  | _, [] => Except.ok []
  | pointIndex, point :: rest => do
      let x := jsToNumber strToNum complexToNum (jsGetField point "x")
      let y := jsToNumber strToNum complexToNum (jsGetField point "y")
      if ¬(jsIsFinite x ∧ jsIsFinite y) then
        Except.error
          { message := s!"SAM2 coordinate at index {pointIndex} must include numeric x and y values."
            itemIndex := itemIndex }
      else do
        let tail ← mapSam2Points strToNum complexToNum itemIndex (pointIndex + 1) rest
        Except.ok ({ x := x, y := y } :: tail)

/-- The SAM2 coordinate resolution of the video branch: an empty (or absent)
parameter leaves the request without coordinates; otherwise the trimmed string
must parse as JSON (JSON.parse passed in as the platform parameter), be a
non-empty array, and have every element pass the coordinate check. -/
def resolveSam2Coordinates (strToNum : String → JsNumber) (complexToNum : Json → JsNumber)
    (parse : String → Except Unit Json) (itemIndex : ℕ) (raw : Option String) :
    Except NodeError (Option (List Sam2Point)) :=
  let sam2CoordinatesJson := jsTrim (raw.getD "")
  if sam2CoordinatesJson = "" then Except.ok none
  else
    match parse sam2CoordinatesJson with
    | Except.error _ =>
        Except.error
          { message := "SAM2 Coordinates must be valid JSON, e.g. [\x7b\"x\":0.5,\"y\":0.5\x7d]"
            itemIndex := itemIndex }
    | Except.ok parsed =>
        match parsed with
        | Json.arr elems =>
            if elems.length = 0 then
              Except.error
                { message := "SAM2 Coordinates must be a non-empty JSON array."
                  itemIndex := itemIndex }
            else
              (mapSam2Points strToNum complexToNum itemIndex 0 elems).map some
        | _ =>
            Except.error
              { message := "SAM2 Coordinates must be a non-empty JSON array."
                itemIndex := itemIndex }

/-! Helper lemmas. -/

/-- Rounding of `(f - 1) / 8` can be computed as the integer division
`(f + 3) / 8`, since `(f - 1) / 8 + 1 / 2 = (f + 3) / 8`. -/
theorem jsRound_sub_one_div_eight (f : ℤ) : jsRound (((f : ℚ) - 1) / 8) = (f + 3) / 8 := by
  unfold jsRound
  have h : ((f : ℚ) - 1) / 8 + 1 / 2 = ((f + 3 : ℤ) : ℚ) / ((8 : ℕ) : ℚ) := by
    push_cast
    ring
  rw [h, Rat.floor_intCast_div_natCast]
  norm_num

/-- Integer form of the LTX-2 quantizer. -/
theorem ltx2Frames_eq (f : ℤ) : ltx2Frames f = max 9 ((f + 3) / 8 * 8 + 1) := by
  unfold ltx2Frames
  rw [jsRound_sub_one_div_eight]

/-- A catch-all try/catch always returns normally. -/
theorem catchAllE_ok (r : Except JsError Unit) : catchAllE r = Except.ok () := by
  cases r <;> rfl

/-- The resolved cleanup bound is positive. -/
theorem resolveCleanupTimeoutMs_pos (t : Option ℚ) : 0 < resolveCleanupTimeoutMs t := by
  unfold resolveCleanupTimeoutMs
  match t with
  | none => norm_num
  | some x =>
      by_cases h : 0 < x
      · simp [h]
      · simp [h]

/-- The time spent racing the promise never exceeds the bound when the bound is
nonnegative. -/
theorem promiseWithTimeout_elapsed_le (p : AsyncOutcome) (timeoutMs : ℚ) (label : String)
    (h : 0 ≤ timeoutMs) : (promiseWithTimeout p timeoutMs label).2 ≤ timeoutMs := by
  unfold promiseWithTimeout
  match p with
  | AsyncOutcome.resolves t =>
      by_cases ht : t ≤ timeoutMs
      · simp [ht]
      · simp [ht]
  | AsyncOutcome.rejects t e =>
      by_cases ht : t ≤ timeoutMs
      · simp [ht]
      · simp [ht]
  | AsyncOutcome.hangs => simp

/-- The graceful-disconnect step runs for at most the bound. -/
theorem gracefulDisconnectBody_elapsed_le (d : DisconnectBehavior) (timeoutMs : ℚ)
    (label : String) (h : 0 ≤ timeoutMs) :
    (gracefulDisconnectBody d timeoutMs label).2 ≤ timeoutMs := by
  unfold gracefulDisconnectBody
  match d with
  | DisconnectBehavior.absent => simpa using h
  | DisconnectBehavior.throwsSync e => simpa using h
  | DisconnectBehavior.promise p => exact promiseWithTimeout_elapsed_le p timeoutMs _ h

/-- safeDisconnect always returns normally. -/
theorem safeDisconnect_ok (client : Option ClientState) (label : String)
    (tm : Option ℚ) : (safeDisconnect client label tm).1 = Except.ok () := by
  unfold safeDisconnect
  match client with
  | none => rfl
  | some c =>
      simp only [catchAllE_ok]

/-- safeDisconnect finishes within the resolved bound. -/
theorem safeDisconnect_elapsed_le (client : Option ClientState) (label : String)
    (tm : Option ℚ) : (safeDisconnect client label tm).2 ≤ resolveCleanupTimeoutMs tm := by
  unfold safeDisconnect
  match client with
  | none => exact le_of_lt (resolveCleanupTimeoutMs_pos tm)
  | some c =>
      simpa using gracefulDisconnectBody_elapsed_le c.disconnect _ label
        (le_of_lt (resolveCleanupTimeoutMs_pos tm))

/-! Claim theorems. -/

/-- C3: for every request in which no parameter source defines a timeout, the
resolved timeout is the network-tier default, and the video default pair
(fast 120000 ms, relaxed 1200000 ms) is strictly larger than the image default
pair (fast 60000 ms, relaxed 600000 ms); in particular a video request on the
fast tier with no explicit timeout resolves to 120000 ms. -/
theorem C3_network_tier_timeout_defaults :
    (∀ network : Network,
      imageResolvedTimeoutMs (imageTimeoutInput none none) network =
        (if network = Network.fast then JsNumber.num 60000 else JsNumber.num 600000)) ∧
    (∀ network : Network,
      editResolvedTimeoutMs none network =
        (if network = Network.fast then JsNumber.num 60000 else JsNumber.num 600000)) ∧
    (∀ network : Network,
      videoResolvedTimeoutMs none network =
        (if network = Network.fast then JsNumber.num 120000 else JsNumber.num 1200000)) ∧
    videoResolvedTimeoutMs none Network.fast = JsNumber.num 120000 ∧
    (60000 : ℚ) < 120000 ∧ (600000 : ℚ) < 1200000 := by
  refine ⟨?_, ?_, ?_, rfl, by norm_num, by norm_num⟩ <;>
    exact fun network => by cases network <;> rfl

/-- C9: the LTX-2 frame quantizer maps every integer requested frame count,
zero and negative values included, to a value that is at least 9 and congruent
to 1 modulo 8. -/
theorem C9_ltx2_frames_always_quantized (videoModelId : String) (f : ℤ)
    (h : isLtx2Model videoModelId = true) :
    9 ≤ resolveFrames videoModelId f ∧ resolveFrames videoModelId f % 8 = 1 := by
  rw [resolveFrames, if_pos h, ltx2Frames_eq]
  omega

/-- Witness for C9 at a concrete LTX-2 model id and the negative frame count
-5. -/
theorem C9_ltx2_frames_always_quantized_witness :
    isLtx2Model "ltx2-19b-distilled" = true ∧
    (9 ≤ resolveFrames "ltx2-19b-distilled" (-5) ∧
      resolveFrames "ltx2-19b-distilled" (-5) % 8 = 1) :=
  ⟨by decide, C9_ltx2_frames_always_quantized "ltx2-19b-distilled" (-5) (by decide)⟩

/-- C4 counterexample: the quantizer does not round up.  For the LTX-2 family
and requested frame count 28, the resolved count is 25, which is smaller than
the request (the claimed lower bound `resolved >= requested` fails; the
smallest value of the form 8n+1 not below 28 would have been 33). -/
theorem C4_counterexample_frames_28 :
    resolveFrames "ltx2-19b-distilled" 28 = 25 ∧
    resolveFrames "ltx2-19b-distilled" 28 < 28 ∧
    smallestQuantAtLeast 28 = 33 := by
  have h : resolveFrames "ltx2-19b-distilled" 28 = 25 := by
    rw [resolveFrames, if_pos (by decide), ltx2Frames_eq]
    decide
  exact ⟨h, by rw [h]; decide, by decide⟩

/-- C4 (amended): for the LTX-2 family the resolved frame count is the
requested count rounded to the nearest value of the form 8n+1 (ties upward),
floored at 9: it is congruent to 1 mod 8, at least 9, at least f-3, at most
max 9 (f+4), hence at most the floored smallest 8n+1 value not below f;
resolve(frames=30) still yields 33; other model families pass through
unchanged. -/
theorem C4_ltx2_frames_nearest_quantization (videoModelId : String) (f : ℤ)
    (h : isLtx2Model videoModelId = true) :
    resolveFrames videoModelId f % 8 = 1 ∧
    9 ≤ resolveFrames videoModelId f ∧
    f - 3 ≤ resolveFrames videoModelId f ∧
    resolveFrames videoModelId f ≤ max 9 (f + 4) ∧
    resolveFrames videoModelId f ≤ max 9 (smallestQuantAtLeast f) ∧
    resolveFrames videoModelId 30 = 33 ∧
    (∀ (m : String) (g : ℤ), isLtx2Model m = false → resolveFrames m g = g) := by
  have hr : resolveFrames videoModelId f = max 9 ((f + 3) / 8 * 8 + 1) := by
    rw [resolveFrames, if_pos h, ltx2Frames_eq]
  have h30 : resolveFrames videoModelId 30 = 33 := by
    rw [resolveFrames, if_pos h, ltx2Frames_eq]
    decide
  refine ⟨by rw [hr]; omega, by rw [hr]; omega, by rw [hr]; omega, by rw [hr]; omega,
    ?_, h30, ?_⟩
  · rw [hr]
    unfold smallestQuantAtLeast
    omega
  · intro m g hm
    rw [resolveFrames, if_neg (by simp [hm])]

/-- Witness for C4 (amended) at concrete model ids, frame count 30 on the
LTX-2 path and pass-through on a non-LTX-2 model. -/
theorem C4_ltx2_frames_nearest_quantization_witness :
    isLtx2Model "ltx2-19b-distilled" = true ∧
    resolveFrames "ltx2-19b-distilled" 30 = 33 ∧
    isLtx2Model "wan_2_2_t2v" = false ∧
    resolveFrames "wan_2_2_t2v" 30 = 30 :=
  ⟨by decide,
   (C4_ltx2_frames_nearest_quantization "ltx2-19b-distilled" 30 (by decide)).2.2.2.2.2.1,
   by decide,
   (C4_ltx2_frames_nearest_quantization "ltx2-19b-distilled" 30 (by decide)).2.2.2.2.2.2
     "wan_2_2_t2v" 30 (by decide)⟩

/-- C5 counterexample: a NaN arriving in the image-generate steps field is NOT
treated as undefined: nullish coalescing keeps it, so the resolved steps value
is the NaN literal rather than the default 20 that an undefined field
produces. -/
theorem C5_counterexample_steps_nan :
    imageSteps (some JsNumber.nan) none = JsNumber.nan ∧
    imageSteps none none = JsNumber.num 20 ∧
    JsNumber.nan ≠ JsNumber.num 20 := by
  exact ⟨rfl, rfl, by decide⟩

/-- C5 (amended): only the fields guarded by an explicit
`typeof === 'number' && !Number.isNaN(...)` test treat NaN as undefined — the
timeouts of all three operations, the edit-operation steps and guidance pair,
and the cost-estimate frames input; fields resolved by plain nullish
coalescing (image-generate steps, guidance, seed) pass NaN through as the
literal resolved value. -/
theorem C5_nan_guarded_fields (network : Network) (modelId : String) :
    imageResolvedTimeoutMs (some JsNumber.nan) network = imageResolvedTimeoutMs none network ∧
    editResolvedTimeoutMs (some JsNumber.nan) network = editResolvedTimeoutMs none network ∧
    videoResolvedTimeoutMs (some JsNumber.nan) network = videoResolvedTimeoutMs none network ∧
    editSteps (some JsNumber.nan) modelId = editSteps none modelId ∧
    editGuidance (some JsNumber.nan) modelId = editGuidance none modelId ∧
    estimateFramesParam (some JsNumber.nan) = none ∧
    imageSteps (some JsNumber.nan) none = JsNumber.nan ∧
    imageGuidance (some JsNumber.nan) none = JsNumber.nan ∧
    imageSeed (some JsNumber.nan) none = some JsNumber.nan :=
  ⟨rfl, rfl, rfl, rfl, rfl, rfl, rfl, rfl, rfl⟩

/-- A string has nonzero length exactly when it is not the empty string. -/
theorem string_length_ne_zero_iff (s : String) : s.length ≠ 0 ↔ s ≠ "" := by
  cases s with
  | mk l => simp [String.length, String.ext_iff, List.length_eq_zero]

/-- normalizeAppId keeps exactly the trimmed override when the trim result is
non-empty. -/
theorem normalizeAppId_of_trim_ne (s : String) (h : jsTrim s ≠ "") :
    normalizeAppId (some s) = some (jsTrim s) := by
  unfold normalizeAppId
  simp only [if_pos ((string_length_ne_zero_iff (jsTrim s)).mpr h)]

/-- normalizeAppId discards a blank override. -/
theorem normalizeAppId_of_trim_eq (s : String) (h : jsTrim s = "") :
    normalizeAppId (some s) = none := by
  unfold normalizeAppId
  simp [h]

/-- Appending distinct suffixes to the same tag yields distinct identities. -/
theorem generateUniqueAppId_ne_of_uuid_ne (pfx : String) {u1 u2 : String} (h : u1 ≠ u2) :
    generateUniqueAppId pfx u1 ≠ generateUniqueAppId pfx u2 := by
  intro he
  apply h
  have hd := congrArg String.data he
  unfold generateUniqueAppId at hd
  rw [String.data_append, String.data_append] at hd
  exact String.ext (List.append_cancel_left hd)

/-- C2 counterexample: an explicit override carrying surrounding whitespace is
not used unchanged — execute uses the trimmed value instead.  With the
credentials appId set to the padded string, the appId actually used differs
from the supplied override. -/
theorem C2_counterexample_padded_override :
    executeAppId (some " my-app ") "3f2a" = "my-app" ∧
    "my-app" ≠ " my-app " := by
  constructor
  · decide
  · decide

/-- C2 (amended): an override that is non-empty after trimming is used as its
trimmed value (hence unchanged exactly when it carries no surrounding
whitespace); a missing or blank override makes execute use a freshly generated
identity whose random components keep two allocations distinct; each of the
three model-option lookups always allocates its own loadopts-tagged identity
ignoring the caller-supplied one, which can never coincide with a generated
execution identity of equal-length random component, and each lookup's finally
block closes its session via the never-throwing close path. -/
theorem C2_identity_allocation {α : Type} (s uuid u1 u2 : String)
    (creds : Credentials) (client : Option ClientState) (body : Except JsError α) :
    (jsTrim s ≠ "" → executeAppId (some s) uuid = jsTrim s) ∧
    (executeAppId none uuid = generateUniqueAppId "n8n-sogni" uuid) ∧
    (jsTrim s = "" → executeAppId (some s) uuid = generateUniqueAppId "n8n-sogni" uuid) ∧
    (u1 ≠ u2 → generateUniqueAppId "n8n-sogni" u1 ≠ generateUniqueAppId "n8n-sogni" u2) ∧
    (u1 ≠ u2 →
      generateUniqueAppId "n8n-sogni-loadopts" u1 ≠ generateUniqueAppId "n8n-sogni-loadopts" u2) ∧
    ((getModelOptionsRun creds uuid client body).appId =
      generateUniqueAppId "n8n-sogni-loadopts" uuid) ∧
    ((getVideoModelOptionsRun creds uuid client body).appId =
      generateUniqueAppId "n8n-sogni-loadopts" uuid) ∧
    ((getImageEditModelOptionsRun creds uuid client body).appId =
      generateUniqueAppId "n8n-sogni-loadopts" uuid) ∧
    (u1.length = u2.length →
      generateUniqueAppId "n8n-sogni-loadopts" u1 ≠ generateUniqueAppId "n8n-sogni" u2) ∧
    ((getModelOptionsRun creds uuid client body).cleanup.1 = Except.ok ()) ∧
    ((getVideoModelOptionsRun creds uuid client body).cleanup.1 = Except.ok ()) ∧
    ((getImageEditModelOptionsRun creds uuid client body).cleanup.1 = Except.ok ()) := by
  refine ⟨?_, rfl, ?_, generateUniqueAppId_ne_of_uuid_ne _,
    generateUniqueAppId_ne_of_uuid_ne _, rfl, rfl, rfl, ?_, ?_, ?_, ?_⟩
  · intro h
    unfold executeAppId
    rw [normalizeAppId_of_trim_ne s h]
    rfl
  · intro h
    unfold executeAppId
    rw [normalizeAppId_of_trim_eq s h]
    rfl
  · intro h he
    have hl := congrArg String.length he
    unfold generateUniqueAppId at hl
    rw [String.length_append, String.length_append, String.length_append,
      String.length_append] at hl
    have h1 : "n8n-sogni-loadopts".length = 18 := by decide
    have h2 : "n8n-sogni".length = 9 := by decide
    have h3 : "-".length = 1 := by decide
    omega
  · exact safeDisconnect_ok client _ _
  · exact safeDisconnect_ok client _ _
  · exact safeDisconnect_ok client _ _

/-- Witness for C2 (amended): concrete overrides, distinct UUID components and
a concrete lookup run. -/
theorem C2_identity_allocation_witness :
    (jsTrim "team-app" ≠ "" ∧ executeAppId (some "team-app") "3f2a" = "team-app") ∧
    (generateUniqueAppId "n8n-sogni" "3f2a" ≠ generateUniqueAppId "n8n-sogni" "77bc") ∧
    ((getModelOptionsRun { username := "u", password := "p", appId := some "mine" } "3f2a"
        none (Except.ok [0])).appId = generateUniqueAppId "n8n-sogni-loadopts" "3f2a") ∧
    ((getModelOptionsRun { username := "u", password := "p", appId := some "mine" } "3f2a"
        none (Except.ok [0])).cleanup.1 = Except.ok ()) := by
  have h := C2_identity_allocation (α := List ℕ) "team-app" "3f2a" "3f2a" "77bc"
    { username := "u", password := "p", appId := some "mine" } none (Except.ok [0])
  exact ⟨⟨by decide, h.1 (by decide)⟩, h.2.2.2.1 (by decide), h.2.2.2.2.2.1,
    h.2.2.2.2.2.2.2.2.2.1⟩

/-- C1: for every client state (absent client, any wrapper disconnect behavior
including rejection, synchronous throw or hanging, and any probed transport
behavior including throwing getters and throwing methods), safeDisconnect
returns normally; two calls in succession both return normally; the elapsed
time never exceeds the configured bound, which resolves to 5000 ms at the
execute call site and 2000 ms at the loadOptions call sites. -/
theorem C1_close_never_throws (c c2 : Option ClientState) (label : String) (tm : Option ℚ) :
    (safeDisconnect c label tm).1 = Except.ok () ∧
    (safeDisconnect c2 label tm).1 = Except.ok () ∧
    (safeDisconnect c label tm).2 ≤ resolveCleanupTimeoutMs tm ∧
    (executeCleanup c).1 = Except.ok () ∧
    (executeCleanup c).2 ≤ 5000 ∧
    (∀ {α : Type} (creds : Credentials) (uuid : String) (body : Except JsError α),
      (runLoadOptions creds uuid c label body).cleanup.1 = Except.ok () ∧
      (runLoadOptions creds uuid c label body).cleanup.2 ≤ 2000) := by
  have h5000 : resolveCleanupTimeoutMs (some 5000) = 5000 := by
    norm_num [resolveCleanupTimeoutMs]
  have h2000 : resolveCleanupTimeoutMs (some 2000) = 2000 := by
    norm_num [resolveCleanupTimeoutMs]
  refine ⟨safeDisconnect_ok c label tm, safeDisconnect_ok c2 label tm,
    safeDisconnect_elapsed_le c label tm, safeDisconnect_ok c "execute" (some 5000), ?_, ?_⟩
  · have h := safeDisconnect_elapsed_le c "execute" (some 5000)
    rw [h5000] at h
    exact h
  · intro α creds uuid body
    refine ⟨safeDisconnect_ok c label (some 2000), ?_⟩
    have h := safeDisconnect_elapsed_le c label (some 2000)
    rw [h2000] at h
    exact h

/-- C8: per-item errors are caught at the item boundary.  With continue-on-fail
enabled, every throwing item becomes a structured error record carrying the
extracted message, in place, and all items are processed; with it disabled, the
first throwing item aborts the run by propagating its error, and no record is
produced for it or any later item. -/
theorem C8_item_error_propagation {α : Type} (outcomes : List (Except JsThrown α)) :
    processItems true outcomes =
      Except.ok (outcomes.map fun r =>
        match r with
        | Except.ok o => ItemResult.success o
        | Except.error e => ItemResult.errorRecord (thrownMessage e)) ∧
    (∀ (pre post : List (Except JsThrown α)) (e : JsThrown),
      (∀ r ∈ pre, ∃ o, r = Except.ok o) →
      processItems false (pre ++ Except.error e :: post) = Except.error e) := by
  constructor
  · induction outcomes with
    | nil => rfl
    | cons r rest ih =>
        cases r with
        | ok o => simp [processItems, ih, Except.map]
        | error e => simp [processItems, ih, Except.map]
  · intro pre post e hpre
    induction pre with
    | nil => rfl
    | cons r rest ih =>
        obtain ⟨o, ho⟩ := hpre r (by simp)
        subst ho
        have htail := ih (fun r hr => hpre r (by simp [hr]))
        simp [processItems, htail, Except.map]

/-- Witness for C8 at a concrete three-item run whose second item throws an
Error with message boom. -/
theorem C8_item_error_propagation_witness :
    processItems false
        [Except.ok 7, Except.error (JsThrown.errorObj "boom"), Except.ok (8 : ℕ)] =
      Except.error (JsThrown.errorObj "boom") ∧
    processItems true
        [Except.ok 7, Except.error (JsThrown.errorObj "boom"), Except.ok (8 : ℕ)] =
      Except.ok [ItemResult.success 7, ItemResult.errorRecord "boom", ItemResult.success 8] := by
  have h := C8_item_error_propagation (α := ℕ)
    [Except.ok 7, Except.error (JsThrown.errorObj "boom"), Except.ok 8]
  refine ⟨h.2 [Except.ok 7] [Except.ok 8] (JsThrown.errorObj "boom") ?_, by simpa using h.1⟩
  intro r hr
  simp at hr
  exact ⟨7, hr⟩

/-- Bind of a successful Except step. -/
theorem except_bind_ok {ε α β : Type} (a : α) (f : α → Except ε β) :
    (Except.ok a >>= f) = f a := rfl

/-- Bind of a failed Except step. -/
theorem except_bind_error {ε α β : Type} (e : ε) (f : α → Except ε β) :
    ((Except.error e : Except ε α) >>= f) = Except.error e := rfl

/-- An empty property name resolves to undefined without consulting the
store. -/
theorem readOptionalBinaryProperty_empty (binary : BinaryStore) (i : ℕ) (label : String) :
    readOptionalBinaryProperty binary i "" label = Except.ok none := by
  simp [readOptionalBinaryProperty]

/-- C6: a required named binary that is absent fails with an error naming the
property and the item index (both for the first edit context image and for any
named video reference binding); an asset that is not required and absent
resolves to undefined and the request omits the binding (empty video property
name; optional context image named but absent is skipped without error). -/
theorem C6_required_asset_resolution (binary : BinaryStore) (i : ℕ)
    (p label p1 p2 p3 : String) (refImg refImgEnd refAudio refVideo : Option String) :
    (p ≠ "" → binary.lookup p = none →
      readOptionalBinaryProperty binary i p label =
        Except.error
          { message := s!"No binary data found in property \"{p}\" for {label}."
            itemIndex := i }) ∧
    (readOptionalBinaryProperty binary i "" label = Except.ok none) ∧
    (binary.lookup p1 = none →
      collectContextImages binary i p1 p2 p3 =
        Except.error
          { message := s!"No binary data found in property \"{p1}\". Please provide a context image."
            itemIndex := i }) ∧
    (∀ b1, binary.lookup p1 = some b1 → binary.lookup p2 = none → p3 = "" →
      collectContextImages binary i p1 p2 p3 = Except.ok [b1]) ∧
    (∀ assets, jsTrim (refImg.getD "") = "" →
      resolveVideoReferenceAssets binary i refImg refImgEnd refAudio refVideo =
        Except.ok assets →
      assets.referenceImage = none) := by
  refine ⟨?_, readOptionalBinaryProperty_empty binary i label, ?_, ?_, ?_⟩
  · intro hp hmiss
    simp [readOptionalBinaryProperty, hp, hmiss]
  · intro hmiss
    simp [collectContextImages, hmiss]
  · intro b1 hb1 hmiss2 hp3
    simp [collectContextImages, hb1, hmiss2, hp3]
  · intro assets h hres
    simp only [resolveVideoReferenceAssets] at hres
    rw [h, readOptionalBinaryProperty_empty, except_bind_ok] at hres
    cases h2 : readOptionalBinaryProperty binary i (jsTrim (refImgEnd.getD ""))
        "reference end image" with
    | error e => rw [h2, except_bind_error] at hres; exact absurd hres (by simp)
    | ok r2 =>
        rw [h2, except_bind_ok] at hres
        cases h3 : readOptionalBinaryProperty binary i (jsTrim (refAudio.getD ""))
            "reference audio" with
        | error e => rw [h3, except_bind_error] at hres; exact absurd hres (by simp)
        | ok r3 =>
            rw [h3, except_bind_ok] at hres
            cases h4 : readOptionalBinaryProperty binary i (jsTrim (refVideo.getD ""))
                "reference video" with
            | error e => rw [h4, except_bind_error] at hres; exact absurd hres (by simp)
            | ok r4 =>
                rw [h4, except_bind_ok] at hres
                injection hres with hok
                rw [← hok]

/-- Witness for C6 at a concrete store with one binary: a required missing
property errors with the property name and item index, the first context image
is found while a named-but-absent optional one is skipped, and an
all-unconfigured video reference resolution omits every binding. -/
theorem C6_required_asset_resolution_witness :
    ("mask" ≠ "" ∧ ([("data", [1, 2])] : BinaryStore).lookup "mask" = none ∧
      readOptionalBinaryProperty [("data", [1, 2])] 4 "mask" "reference image" =
        Except.error
          { message := "No binary data found in property \"mask\" for reference image."
            itemIndex := 4 }) ∧
    (collectContextImages [("data", [1, 2])] 4 "data" "extra" "" = Except.ok [[1, 2]]) ∧
    (∀ assets, resolveVideoReferenceAssets [("data", [1, 2])] 4 none none none none =
        Except.ok assets → assets.referenceImage = none) := by
  have h := C6_required_asset_resolution [("data", [1, 2])] 4 "mask" "reference image"
    "data" "extra" "" none none none none
  refine ⟨⟨by decide, by decide, h.1 (by decide) (by decide)⟩,
    h.2.2.2.1 [1, 2] (by decide) (by decide) rfl,
    fun assets => h.2.2.2.2 assets (by decide)⟩

/-- The download loop partitions the indexed URLs: successful steps contribute
their binary entry, failing steps contribute a recorded failure, and nothing
escapes. -/
theorem downloadLoop_partition (step : ℕ → String → Except JsError (String × BinaryEntry))
    (pairs : List (ℕ × String)) :
    (downloadLoop step pairs).binary =
      pairs.filterMap (fun p => (step p.1 p.2).toOption) ∧
    (downloadLoop step pairs).failures =
      pairs.filterMap (fun p =>
        match step p.1 p.2 with
        | Except.ok _ => none
        | Except.error (JsError.err m) => some { index := p.1, message := m }) := by
  induction pairs with
  | nil => exact ⟨rfl, rfl⟩
  | cons pr rest ih =>
      obtain ⟨i, u⟩ := pr
      cases hstep : step i u with
      | ok entry =>
          simp [downloadLoop, hstep, ih.1, ih.2, Except.toOption]
      | error e =>
          cases e with
          | err m => simp [downloadLoop, hstep, ih.1, ih.2, Except.toOption]

/-- C7: per-URL download failure tolerance.  For every URL list and fetch
behavior the loop returns entries for exactly the successful indices and
records a failure for exactly the failing indices (non-success status or
thrown error), never aborting; successes occupy slot image / image_k (video /
video_k for the video loop); and in the concrete three-URL scenario where the
second URL yields a non-success status, artifacts exist for indices 0 and 2
and a failure is recorded for index 1. -/
theorem C7_download_partial_success (urls : List String) (fetch : String → FetchOutcome)
    (dec : String → String) (projectId videoProjectId : Option String)
    (outputFormat : String) :
    (imageDownloadPhase true urls fetch dec projectId).binary =
      urls.enum.filterMap (fun p => (downloadImageAt fetch dec projectId p.1 p.2).toOption) ∧
    (imageDownloadPhase true urls fetch dec projectId).failures =
      urls.enum.filterMap (fun p =>
        match downloadImageAt fetch dec projectId p.1 p.2 with
        | Except.ok _ => none
        | Except.error (JsError.err m) => some { index := p.1, message := m }) ∧
    (videoDownloadPhase true urls fetch dec videoProjectId outputFormat).binary =
      urls.enum.filterMap
        (fun p => (downloadVideoAt fetch dec videoProjectId outputFormat p.1 p.2).toOption) ∧
    (videoDownloadPhase true urls fetch dec videoProjectId outputFormat).failures =
      urls.enum.filterMap (fun p =>
        match downloadVideoAt fetch dec videoProjectId outputFormat p.1 p.2 with
        | Except.ok _ => none
        | Except.error (JsError.err m) => some { index := p.1, message := m }) ∧
    (∀ i u entry, downloadImageAt fetch dec projectId i u = Except.ok entry →
      entry.1 = if i = 0 then "image" else s!"image_{i}") ∧
    (∀ i u entry, downloadVideoAt fetch dec videoProjectId outputFormat i u = Except.ok entry →
      entry.1 = if i = 0 then "video" else s!"video_{i}") ∧
    ((imageDownloadPhase true ["u0", "u1", "u2"]
        (fun u =>
          if u = "u1" then
            Except.ok
              { ok := false, status := 502, statusText := "Bad Gateway", headers := [], body := [] }
          else
            Except.ok
              { ok := true, status := 200, statusText := "OK", headers := [], body := [] })
        (fun s => s) none).binary.map Prod.fst = ["image", "image_2"] ∧
      (imageDownloadPhase true ["u0", "u1", "u2"]
        (fun u =>
          if u = "u1" then
            Except.ok
              { ok := false, status := 502, statusText := "Bad Gateway", headers := [], body := [] }
          else
            Except.ok
              { ok := true, status := 200, statusText := "OK", headers := [], body := [] })
        (fun s => s) none).failures =
        [{ index := 1, message := "Failed to download image: 502 Bad Gateway" }]) := by
  have himg : imageDownloadPhase true urls fetch dec projectId =
      downloadLoop (downloadImageAt fetch dec projectId) urls.enum := by
    cases urls with
    | nil => rfl
    | cons a l => simp [imageDownloadPhase]
  have hvid : videoDownloadPhase true urls fetch dec videoProjectId outputFormat =
      downloadLoop (downloadVideoAt fetch dec videoProjectId outputFormat) urls.enum := by
    cases urls with
    | nil => rfl
    | cons a l => simp [videoDownloadPhase]
  refine ⟨?_, ?_, ?_, ?_, ?_, ?_, by decide, by decide⟩
  · rw [himg]; exact (downloadLoop_partition _ _).1
  · rw [himg]; exact (downloadLoop_partition _ _).2
  · rw [hvid]; exact (downloadLoop_partition _ _).1
  · rw [hvid]; exact (downloadLoop_partition _ _).2
  · intro i u entry hok
    unfold downloadImageAt at hok
    cases hf : fetch u with
    | error e => rw [hf, except_bind_error] at hok; exact absurd hok (by simp)
    | ok resp =>
        rw [hf, except_bind_ok] at hok
        by_cases hr : resp.ok
        · simp only [hr, Bool.not_true, Bool.false_eq_true, if_false] at hok
          injection hok with h
          rw [← h]
        · simp [hr] at hok
  · intro i u entry hok
    unfold downloadVideoAt at hok
    cases hf : fetch u with
    | error e => rw [hf, except_bind_error] at hok; exact absurd hok (by simp)
    | ok resp =>
        rw [hf, except_bind_ok] at hok
        by_cases hr : resp.ok
        · simp only [hr, Bool.not_true, Bool.false_eq_true, if_false] at hok
          injection hok with h
          rw [← h]
        · simp [hr] at hok

/-- Witness for C7: the slot-name conjuncts applied at a successful concrete
download, on top of the already-closed scenario conjuncts. -/
theorem C7_download_partial_success_witness :
    downloadImageAt
        (fun u => Except.ok { ok := true, status := 200, statusText := "OK", headers := [], body := [] })
        (fun s => s) none 2 "u2" =
      Except.ok ("image_2",
        { data := [], fileName := "sogni_2.bin", mimeType := "application/octet-stream" }) ∧
    ("image_2",
        ({ data := [], fileName := "sogni_2.bin", mimeType := "application/octet-stream" }
          : BinaryEntry)).1 =
      if 2 = 0 then "image" else s!"image_{2}" := by
  refine ⟨by rfl, ?_⟩
  exact (C7_download_partial_success [] (fun u =>
      Except.ok { ok := true, status := 200, statusText := "OK", headers := [], body := [] })
    (fun s => s) none none "mp4").2.2.2.2.1 2 "u2" _ (by rfl)


/-- The SAM2 point mapping succeeds exactly when every element has x and y that
are finite after Number conversion. -/
theorem mapSam2Points_ok_iff (stn : String → JsNumber) (ctn : Json → JsNumber)
    (i : ℕ) (pts : List Json) : ∀ k : ℕ,
    (∃ l, mapSam2Points stn ctn i k pts = Except.ok l) ↔
      (∀ p ∈ pts, jsIsFinite (jsToNumber stn ctn (jsGetField p "x")) = true ∧
                  jsIsFinite (jsToNumber stn ctn (jsGetField p "y")) = true) := by
  induction pts with
  | nil =>
      intro k
      simp [mapSam2Points]
  | cons p rest ih =>
      intro k
      by_cases hx : (jsIsFinite (jsToNumber stn ctn (jsGetField p "x")) = true) ∧
          (jsIsFinite (jsToNumber stn ctn (jsGetField p "y")) = true)
      · constructor
        · rintro ⟨l, hl⟩ q hq
          rcases List.mem_cons.mp hq with h | h
          · subst h; exact hx
          · unfold mapSam2Points at hl
            rw [if_neg (not_not_intro hx)] at hl
            cases htl : mapSam2Points stn ctn i (k + 1) rest with
            | error e => rw [htl, except_bind_error] at hl; exact absurd hl (by simp)
            | ok tl => exact ((ih (k + 1)).mp ⟨tl, htl⟩) q h
        · intro hall
          obtain ⟨tl, htl⟩ := (ih (k + 1)).mpr (fun q hq => hall q (List.mem_cons_of_mem p hq))
          refine ⟨{ x := jsToNumber stn ctn (jsGetField p "x"),
                    y := jsToNumber stn ctn (jsGetField p "y") } :: tl, ?_⟩
          unfold mapSam2Points
          rw [if_neg (not_not_intro hx), htl, except_bind_ok]
      · constructor
        · rintro ⟨l, hl⟩
          unfold mapSam2Points at hl
          rw [if_pos hx] at hl
          exact absurd hl (by simp)
        · intro hall
          exact absurd (hall p (List.mem_cons_self p rest)) hx

/-- C10 counterexample: the validator accepts elements whose x and y are not
numeric values at all.  With the parameter set to the JSON text
[\x7b"x":null,"y":null\x7d] (which parses to an object whose x and y are
null), the job is submitted with coordinates \x7bx: 0, y: 0\x7d because
`Number(null)` is 0, even though the element has no numeric x or y value. -/
theorem C10_counterexample_null_coordinates :
    resolveSam2Coordinates (fun _ => JsNumber.nan) (fun _ => JsNumber.nan)
        (fun _ => Except.ok (Json.arr [Json.obj [("x", Json.null), ("y", Json.null)]]))
        0 (some "[\x7b\"x\":null,\"y\":null\x7d]") =
      Except.ok (some [{ x := JsNumber.num 0, y := JsNumber.num 0 }]) ∧
    jsGetField (Json.obj [("x", Json.null), ("y", Json.null)]) "x" = some Json.null ∧
    (∀ q : ℚ, jsGetField (Json.obj [("x", Json.null), ("y", Json.null)]) "x" ≠
      some (Json.num q)) := by
  refine ⟨by rfl, by rfl, ?_⟩
  intro q h
  rw [show jsGetField (Json.obj [("x", Json.null), ("y", Json.null)]) "x" = some Json.null
    from rfl] at h
  exact Json.noConfusion (Option.some.inj h)

/-- C10 (amended): an empty or absent SAM2 parameter attaches no coordinates;
a non-empty one must parse as JSON into a non-empty array in which every
element's x and y CONVERT TO FINITE NUMBERS under JavaScript Number coercion
(so null, booleans or numeric strings pass as well as numbers), otherwise the
item fails with a descriptive error before any job submission. -/
theorem C10_sam2_validation (stn : String → JsNumber) (ctn : Json → JsNumber)
    (parse : String → Except Unit Json) (i : ℕ) (raw : Option String) :
    (jsTrim (raw.getD "") = "" →
      resolveSam2Coordinates stn ctn parse i raw = Except.ok none) ∧
    (∀ pts, resolveSam2Coordinates stn ctn parse i raw = Except.ok (some pts) →
      jsTrim (raw.getD "") ≠ "" ∧
      ∃ elems, parse (jsTrim (raw.getD "")) = Except.ok (Json.arr elems) ∧ elems ≠ [] ∧
        ∀ p ∈ elems, jsIsFinite (jsToNumber stn ctn (jsGetField p "x")) = true ∧
                     jsIsFinite (jsToNumber stn ctn (jsGetField p "y")) = true) ∧
    (∀ elems, jsTrim (raw.getD "") ≠ "" →
      parse (jsTrim (raw.getD "")) = Except.ok (Json.arr elems) → elems ≠ [] →
      (∀ p ∈ elems, jsIsFinite (jsToNumber stn ctn (jsGetField p "x")) = true ∧
                    jsIsFinite (jsToNumber stn ctn (jsGetField p "y")) = true) →
      ∃ pts, resolveSam2Coordinates stn ctn parse i raw = Except.ok (some pts)) ∧
    (∀ err, jsTrim (raw.getD "") ≠ "" → parse (jsTrim (raw.getD "")) = Except.error err →
      resolveSam2Coordinates stn ctn parse i raw =
        Except.error
          { message := "SAM2 Coordinates must be valid JSON, e.g. [\x7b\"x\":0.5,\"y\":0.5\x7d]"
            itemIndex := i }) ∧
    (∀ j, jsTrim (raw.getD "") ≠ "" → parse (jsTrim (raw.getD "")) = Except.ok j →
      (∀ elems, j ≠ Json.arr elems) →
      resolveSam2Coordinates stn ctn parse i raw =
        Except.error
          { message := "SAM2 Coordinates must be a non-empty JSON array."
            itemIndex := i }) ∧
    (jsTrim (raw.getD "") ≠ "" → parse (jsTrim (raw.getD "")) = Except.ok (Json.arr []) →
      resolveSam2Coordinates stn ctn parse i raw =
        Except.error
          { message := "SAM2 Coordinates must be a non-empty JSON array."
            itemIndex := i }) := by
  refine ⟨?_, ?_, ?_, ?_, ?_, ?_⟩
  · intro h
    unfold resolveSam2Coordinates
    rw [if_pos h]
  · intro pts hres
    by_cases h : jsTrim (raw.getD "") = ""
    · unfold resolveSam2Coordinates at hres
      rw [if_pos h] at hres
      exact absurd hres (by simp)
    · refine ⟨h, ?_⟩
      unfold resolveSam2Coordinates at hres
      rw [if_neg h] at hres
      cases hp : parse (jsTrim (raw.getD "")) with
      | error e => rw [hp] at hres; exact absurd hres (by simp)
      | ok parsed =>
          rw [hp] at hres
          cases parsed with
          | arr elems =>
              have hres2 : (if elems.length = 0 then
                  (Except.error
                    { message := "SAM2 Coordinates must be a non-empty JSON array."
                      itemIndex := i } : Except NodeError (Option (List Sam2Point)))
                else Except.map some (mapSam2Points stn ctn i 0 elems)) =
                  Except.ok (some pts) := hres
              by_cases hlen : elems.length = 0
              · rw [if_pos hlen] at hres2
                exact absurd hres2 (by simp)
              · rw [if_neg hlen] at hres2
                cases hm : mapSam2Points stn ctn i 0 elems with
                | error e => rw [hm] at hres2; exact absurd hres2 (by simp [Except.map])
                | ok l =>
                    refine ⟨elems, rfl, fun he => hlen (by rw [he]; rfl), ?_⟩
                    exact (mapSam2Points_ok_iff stn ctn i elems 0).mp ⟨l, hm⟩
          | null => exact absurd hres (by simp)
          | bool b => exact absurd hres (by simp)
          | num x => exact absurd hres (by simp)
          | str s => exact absurd hres (by simp)
          | obj fields => exact absurd hres (by simp)
  · intro elems h hp hne hall
    obtain ⟨l, hl⟩ := (mapSam2Points_ok_iff stn ctn i elems 0).mpr hall
    refine ⟨l, ?_⟩
    unfold resolveSam2Coordinates
    rw [if_neg h, hp]
    have hlen : ¬elems.length = 0 := fun h0 => hne (List.length_eq_zero.mp h0)
    show (if elems.length = 0 then
        (Except.error
          { message := "SAM2 Coordinates must be a non-empty JSON array."
            itemIndex := i } : Except NodeError (Option (List Sam2Point)))
      else Except.map some (mapSam2Points stn ctn i 0 elems)) = Except.ok (some l)
    rw [if_neg hlen, hl]
    rfl
  · intro err h hp
    unfold resolveSam2Coordinates
    rw [if_neg h, hp]
  · intro j h hp hnot
    unfold resolveSam2Coordinates
    rw [if_neg h, hp]
    cases j with
    | arr elems => exact absurd rfl (hnot elems)
    | null => rfl
    | bool b => rfl
    | num x => rfl
    | str s => rfl
    | obj fields => rfl
  · intro h hp
    unfold resolveSam2Coordinates
    rw [if_neg h, hp]
    rfl

/-- Witness for C10 (amended) at concrete inputs: a blank parameter attaches
nothing, a valid two-point array is accepted, and invalid JSON produces the
descriptive error. -/
theorem C10_sam2_validation_witness :
    resolveSam2Coordinates (fun _ => JsNumber.nan) (fun _ => JsNumber.nan)
        (fun _ => Except.error ()) 0 (some "   ") = Except.ok none ∧
    (∃ pts, resolveSam2Coordinates (fun _ => JsNumber.nan) (fun _ => JsNumber.nan)
        (fun _ => Except.ok (Json.arr [Json.obj [("x", Json.num (1 / 2)), ("y", Json.num (1 / 2))]]))
        0 (some "[\x7b\"x\":0.5,\"y\":0.5\x7d]") = Except.ok (some pts)) ∧
    resolveSam2Coordinates (fun _ => JsNumber.nan) (fun _ => JsNumber.nan)
        (fun _ => Except.error ()) 0 (some "not json") =
      Except.error
        { message := "SAM2 Coordinates must be valid JSON, e.g. [\x7b\"x\":0.5,\"y\":0.5\x7d]"
          itemIndex := 0 } := by
  refine ⟨(C10_sam2_validation (fun _ => JsNumber.nan) (fun _ => JsNumber.nan)
      (fun _ => Except.error ()) 0 (some "   ")).1 (by decide), ?_, ?_⟩
  · refine (C10_sam2_validation (fun _ => JsNumber.nan) (fun _ => JsNumber.nan)
      (fun _ => Except.ok (Json.arr [Json.obj [("x", Json.num (1 / 2)), ("y", Json.num (1 / 2))]]))
      0 (some "[\x7b\"x\":0.5,\"y\":0.5\x7d]")).2.2.1
      [Json.obj [("x", Json.num (1 / 2)), ("y", Json.num (1 / 2))]]
      (by decide) rfl (by simp) ?_
    intro p hp
    rw [List.mem_singleton.mp hp]
    exact ⟨rfl, rfl⟩
  · exact (C10_sam2_validation (fun _ => JsNumber.nan) (fun _ => JsNumber.nan)
      (fun _ => Except.error ()) 0 (some "not json")).2.2.2.1 () (by decide) rfl
